import Mathlib

/-!
Shallow embedding of the web-scraper-generator core: the selector validator
(`validator.py`), the refinement loop and generator control flow
(`generator.py`), the analyzer's discovery pipeline (`analyzer.py`), the SPA
detector (`generator.py` and `ai_agent.py`), the batch driver, and the LLM
client's JSON-extraction step (`llm_client.py`).

External collaborators — HTTP fetching (`requests`), DOM querying
(`BeautifulSoup.select` / `select_one`), `json.loads`, `urllib.parse` helpers
and the LLM oracle itself — are modelled as function parameters, so every
theorem is quantified over their behaviour.  Machine floats in the source only
carry ratios of small counts, embedded here as `ℚ`.
-/

namespace ScraperGen

/-- A DOM element as the validator sees it: its `href` attribute
(`elem.get('href')`, `none` when absent) and its stripped text
(`elem.get_text(strip=True)`). -/
structure Element where
  href : Option String
  text : String
deriving DecidableEq

/-- One article sample produced by `SiteAnalyzer.get_article_samples`:
the dict `{'url': url, 'html': html}`. -/
structure ArticleSample where
  url : String
  html : String
deriving DecidableEq

/-- The selector record parsed from the oracle's JSON (`selectors.get(key)`;
`none` models a missing key or JSON `null`).  The free-text `notes` key is
never read by the code and is omitted. -/
structure SelectorSet where
  article_links_selector : Option String
  title_selector : Option String
  content_selector : Option String
  date_selector : Option String
  author_selector : Option String
  base_url_pattern : Option String
  article_path_pattern : Option String
  blog_page_path : Option String
deriving DecidableEq

/-- Result dict of `ScraperValidator._validate_article_links`.  In the
degenerate branch the Python dict has no `examples` key, modelled by
`examples = none`. -/
structure LinksResult where
  found : Bool
  count : Nat
  examples : Option (List String)
deriving DecidableEq

/-- Result dict of `ScraperValidator._validate_field`; `examples` holds
`{'url': sample_url, 'value': text[:100]}` pairs. -/
structure FieldResult where
  success_rate : ℚ
  found_in : Nat
  total : Nat
  examples : List (String × String)
deriving DecidableEq

/-- The dict built by `ScraperValidator.validate_selectors`. -/
structure ValidationResults where
  article_links : LinksResult
  title : FieldResult
  content : FieldResult
  date : FieldResult
  author : FieldResult
  overall_score : ℚ
deriving DecidableEq

/-- `ScraperValidator._validate_article_links`: `select` is the DOM collaborator
`BeautifulSoup(html).select`.  Python truthiness: a `None` or empty selector, or
empty HTML, short-circuits; an element counts only when `elem.get('href')` is
truthy (present and non-empty). -/
def validate_article_links (select : String → String → List Element)
    (selector : Option String) (html : String) : LinksResult :=
  match selector with
  | none => ⟨false, 0, none⟩
  | some sel =>
    if sel = "" ∨ html = "" then ⟨false, 0, none⟩
    else
      let links := (select sel html).filterMap (fun e =>
        match e.href with
        | none => none
        | some h => if h = "" then none else some h)
      ⟨decide (0 < links.length), links.length, some (links.take 3)⟩

/-- `ScraperValidator._validate_field`: `selectOne` is the DOM collaborator
`BeautifulSoup(html).select_one`.  A sample with empty HTML is skipped; a hit
requires a matching element with non-empty stripped text.  The `field_name`
argument of the source is never read and is omitted.  The division guard
mirrors `found_count / len(samples) if samples else 0`. -/
def validate_field (selectOne : String → String → Option Element)
    (selector : Option String) (samples : List ArticleSample) : FieldResult :=
  match selector with
  | none => ⟨0, 0, samples.length, []⟩
  | some sel =>
    if sel = "" then ⟨0, 0, samples.length, []⟩
    else
      let hits := samples.filterMap (fun sample =>
        if sample.html = "" then none
        else
          match selectOne sel sample.html with
          | none => none
          | some e => if e.text = "" then none else some (sample.url, e.text.take 100))
      ⟨if samples.length ≠ 0 then (hits.length : ℚ) / (samples.length : ℚ) else 0,
       hits.length, samples.length, hits⟩

/-- `ScraperValidator.validate_selectors`: runs the per-field checks, then the
link gate — if `article_links` found nothing the score is 0; otherwise the
score is the mean of `[1.0]` plus the title and content success rates when
they are strictly positive (`scores` is never empty, but the
`if scores else 0` guard of the source is kept). -/
def validate_selectors (select : String → String → List Element)
    (selectOne : String → String → Option Element) (selectors : SelectorSet)
    (homepage_html : String) (article_samples : List ArticleSample) :
    ValidationResults :=
  let links := validate_article_links select selectors.article_links_selector homepage_html
  let title := validate_field selectOne selectors.title_selector article_samples
  let content := validate_field selectOne selectors.content_selector article_samples
  let date := validate_field selectOne selectors.date_selector article_samples
  let author := validate_field selectOne selectors.author_selector article_samples
  let score : ℚ :=
    if links.found then
      let scores : List ℚ :=
        [1] ++ (if 0 < title.success_rate then [title.success_rate] else [])
          ++ (if 0 < content.success_rate then [content.success_rate] else [])
      if scores.length ≠ 0 then scores.sum / (scores.length : ℚ) else 0
    else 0
  ⟨links, title, content, date, author, score⟩

/-- `ScraperValidator.is_valid` (threshold defaults to 0.6 = 3/5 at the call
sites). -/
def is_valid (validation_results : ValidationResults) (threshold : ℚ) : Bool :=
  decide (threshold ≤ validation_results.overall_score)

/-- The `while not is_valid(validation) and retry_count < max_retries` loop of
`ScraperGenerator.generate` (generator.py lines 112-130), with the loop state
`(selectors, validation, retry_count)` made explicit.  `fuel` is
`max_retries - retry_count`, so `0 < fuel` is exactly the guard
`retry_count < max_retries`. -/
def refine_loop (validate : SelectorSet → ValidationResults)
    (refine : SelectorSet → ValidationResults → SelectorSet) :
    Nat → SelectorSet → ValidationResults → Nat →
    SelectorSet × ValidationResults × Nat
  | 0, selectors, validation, retryCount => (selectors, validation, retryCount)
  | Nat.succ fuel, selectors, validation, retryCount =>
    if is_valid validation (3 / 5) then (selectors, validation, retryCount)
    else
      let selectors2 := refine selectors validation
      let validation2 := validate selectors2
      refine_loop validate refine fuel selectors2 validation2 (retryCount + 1)

/-! ### Python string primitives, embedded on character lists (the byte-based
core `String` operations do not kernel-reduce, so the witnesses could not be
evaluated through them) -/

/-- `t.startswith(p)` on character lists. -/
def charsHasPrefix : List Char → List Char → Bool
  | _, [] => true
  | [], _ :: _ => false
  | c :: s, d :: t => c = d && charsHasPrefix s t

/-- Substring search on character lists (Python `needle in haystack`). -/
def charsContains : List Char → List Char → Bool
  | [], needle => needle.isEmpty
  | c :: rest, needle => charsHasPrefix (c :: rest) needle || charsContains rest needle

/-- Python's `pat in s` substring test. -/
def containsSubstr (s pat : String) : Bool :=
  charsContains s.data pat.data

/-- Python's `s.lower()` (per character; the patterns compared against are
all ASCII). -/
def strLower (s : String) : String := ⟨s.data.map Char.toLower⟩

/-- Python's `s.startswith(pre)`. -/
def strStartsWith (s pre : String) : Bool := charsHasPrefix s.data pre.data

/-- Python's `s.endswith(suf)`. -/
def strEndsWith (s suf : String) : Bool := charsHasPrefix s.data.reverse suf.data.reverse

/-- Python's `s.rstrip('/')`. -/
def rstrip_slash (s : String) : String :=
  ⟨(s.data.reverse.dropWhile (fun c => c = '/')).reverse⟩

/-! ### LLM client (`llm_client.py`): JSON extraction and parse-failure paths -/

/-- The fenced-code-block extraction shared by `analyze_site_structure` and
`refine_selectors`: `content.split("```json")[1].split("```")[0].strip()`,
falling back to the generic ```` ``` ```` fence, else the raw reply.  When the
guard holds the split has at least two chunks, so `getD` equals Python's
indexing. -/
def extract_json_block (content : String) : String :=
  if containsSubstr content "```json" then
    ((((content.splitOn "```json").getD 1 "").splitOn "```").getD 0 "").trim
  else if containsSubstr content "```" then
    ((((content.splitOn "```").getD 1 "").splitOn "```").getD 0 "").trim
  else content

/-- `LLMClient.analyze_site_structure`, abstracted over the HTTP round trip
(`oracleReply`: the reply text, or the exception raised while obtaining it)
and over `json.loads` (`jsonLoads`, `none` = `JSONDecodeError`).  The
source's `except` clause prints and then re-raises, so any failure —
network or parse — propagates as an error. -/
def analyze_site_structure (jsonLoads : String → Option SelectorSet)
    (oracleReply : Except String String) : Except String SelectorSet :=
  match oracleReply with
  | Except.error e => Except.error e
  | Except.ok content =>
    match jsonLoads (extract_json_block content) with
    | some selectors => Except.ok selectors
    | none => Except.error "Error calling LLM API: JSONDecodeError"

/-- `LLMClient.refine_selectors`, abstracted the same way.  Its `except`
clause returns `current_selectors`, so every failure — network or parse —
yields the unchanged previous selector set, never an error. -/
def refine_selectors (jsonLoads : String → Option SelectorSet)
    (current_selectors : SelectorSet) (oracleReply : Except String String) :
    SelectorSet :=
  match oracleReply with
  | Except.error _ => current_selectors
  | Except.ok content =>
    match jsonLoads (extract_json_block content) with
    | some selectors => selectors
    | none => current_selectors

/-! ### SPA detection (`ScraperGenerator._detect_spa`) -/

/-- What `_detect_spa` reads from the parsed `<body>` (a DOM-collaborator
product): the summed `len(str(script))` over its script tags and
`len(body.get_text(strip=True))`. -/
structure BodyInfo where
  scripts_length : Nat
  text_length : Nat
deriving DecidableEq

/-- React gate: `'react' in html_lower or 'reactdom' in html_lower or
'__react' in html_lower`. -/
def spa_react (html : String) : Bool :=
  containsSubstr (strLower html) "react" || containsSubstr (strLower html) "reactdom" ||
    containsSubstr (strLower html) "__react"

/-- Vue gate: `'vue.js' in html_lower or 'vue.min.js' in html_lower or
'v-if=' in html or 'v-for=' in html` (the directives are checked on the raw
HTML, not the lowered copy). -/
def spa_vue (html : String) : Bool :=
  containsSubstr (strLower html) "vue.js" || containsSubstr (strLower html) "vue.min.js" ||
    containsSubstr html "v-if=" || containsSubstr html "v-for="

/-- Angular gate. -/
def spa_angular (html : String) : Bool :=
  containsSubstr (strLower html) "angular" || containsSubstr (strLower html) "ng-app" ||
    containsSubstr (strLower html) "ng-controller"

/-- Next.js gate. -/
def spa_next (html : String) : Bool :=
  containsSubstr (strLower html) "__next" || containsSubstr (strLower html) "next/static" ||
    containsSubstr (strLower html) "_next/static"

/-- Nuxt.js gate. -/
def spa_nuxt (html : String) : Bool :=
  containsSubstr (strLower html) "__nuxt" || containsSubstr (strLower html) "nuxt.js"

/-- Empty-root-div gate (checked on the raw HTML). -/
def spa_root_div (html : String) : Bool :=
  containsSubstr html "<div id=\"root\"></div>" || containsSubstr html "<div id=\"app\"></div>"

/-- Webpack gate. -/
def spa_webpack (html : String) : Bool :=
  containsSubstr (strLower html) "webpack" || containsSubstr (strLower html) "__webpack"

/-- New Relic gate. -/
def spa_newrelic (html : String) : Bool :=
  containsSubstr (strLower html) "newrelic" || containsSubstr (strLower html) "nr-data.net"

/-- The two body-based checks of `_detect_spa` — an `if`/`elif`, so at most
one of the two messages is appended.  `1.2` is the exact rational `6/5`. -/
def spa_body_block (b : BodyInfo) : List String :=
  if 5000 < b.scripts_length ∧ b.text_length < 500 then
    ["Minimal HTML content (body mostly contains scripts)"]
  else if 15000 < b.scripts_length ∧
      (6 : ℚ) / 5 < (b.scripts_length : ℚ) / ((max 1 b.text_length : Nat) : ℚ) then
    ["Heavy JavaScript content (script/text ratio too high)"]
  else []

/-- `ScraperGenerator._detect_spa`: the indicator list, appended in source
order.  `getBody` abstracts `BeautifulSoup(html).find('body')` (`none` when
the page has no body, in which case the body checks are skipped). -/
def detect_spa (getBody : String → Option BodyInfo) (html : String) : List String :=
  (if spa_react html then ["React framework detected"] else []) ++
  (if spa_vue html then ["Vue.js framework detected"] else []) ++
  (if spa_angular html then ["Angular framework detected"] else []) ++
  (if spa_next html then ["Next.js framework detected"] else []) ++
  (if spa_nuxt html then ["Nuxt.js framework detected"] else []) ++
  (if spa_root_div html then ["Empty root div (typical for SPAs)"] else []) ++
  (if spa_webpack html then ["Webpack module loader detected"] else []) ++
  (if spa_newrelic html then ["New Relic monitoring (common in SPAs)"] else []) ++
  (match getBody html with
   | none => []
   | some b => spa_body_block b)

/-- The combined body signal: true iff the `if`/`elif` body block of
`_detect_spa` appends a message. -/
def spa_body_signal (getBody : String → Option BodyInfo) (html : String) : Bool :=
  match getBody html with
  | none => false
  | some b =>
    decide (5000 < b.scripts_length ∧ b.text_length < 500) ||
      decide (15000 < b.scripts_length ∧
        (6 : ℚ) / 5 < (b.scripts_length : ℚ) / ((max 1 b.text_length : Nat) : ℚ))

/-- How `ScraperGenerator.generate` consumes the detector: `is_spa =
self._detect_spa(...); if is_spa:` — Python list truthiness, i.e. the verdict
is "JS-rendered" iff the indicator list is non-empty. -/
def generator_spa_verdict (getBody : String → Option BodyInfo) (html : String) : Bool :=
  !(detect_spa getBody html).isEmpty

/-! ### Agent-variant SPA check (`ai_agent.check_js_rendered_site`) -/

/-- What the agent's check reads from the DOM collaborator: the SPA root-div
probe, the visible-text length after stripping script/style/noscript, the
serialized soup (`str(soup)`), and the script/link/body-children counts from
the original document. -/
structure AgentDomView where
  has_root_div : Bool
  text_length : Nat
  html_str : String
  script_count : Nat
  links_count : Nat
  body_children : Nat
deriving DecidableEq

/-- The `spa_indicators` list built by `check_js_rendered_site`, in source
order (interpolated counts in the message strings are elided; the claims only
concern the list's length). -/
def agent_spa_indicators (dv : AgentDomView) : List String :=
  (if dv.has_root_div then ["Found SPA root div (#root, #app, or #__next)"] else []) ++
  (if dv.text_length < 500 then ["Very minimal text content"] else []) ++
  (if containsSubstr (strLower dv.html_str) "react" ||
      containsSubstr (strLower dv.html_str) "data-reactroot" then
    ["React framework detected"] else []) ++
  (if containsSubstr (strLower dv.html_str) "vue" ||
      containsSubstr (strLower dv.html_str) "data-v-" then
    ["Vue framework detected"] else []) ++
  (if containsSubstr (strLower dv.html_str) "ng-app" ||
      containsSubstr (strLower dv.html_str) "angular" then
    ["Angular framework detected"] else []) ++
  (if 10 < dv.script_count ∧ dv.links_count < 20 then
    ["High script count vs low link count"] else []) ++
  (if dv.body_children ≤ 2 ∧ dv.text_length < 1000 then
    ["Nearly empty body"] else [])

/-- The agent's verdict: `is_js_heavy = len(spa_indicators) >= 3`. -/
def agent_is_js_heavy (dv : AgentDomView) : Bool :=
  decide (3 ≤ (agent_spa_indicators dv).length)

/-! ### Site analyzer (`analyzer.py`) -/

/-- `SiteAnalyzer.analyze`'s result dict. -/
structure Analysis where
  base_url : String
  homepage_html : String
  blog_page_html : Option String
  blog_page_url : Option String
  article_urls : List String
  article_samples : List ArticleSample
  num_samples : Nat
deriving DecidableEq

/-- The analyzer's collaborators: `fetch` is `fetch_page` (returns `""` on any
fetch failure); `findArticleUrls` is the oracle capability
`LLMClient.find_article_urls (site_url, html, max_articles, is_blog_page)`;
`findBlogPage` is `_find_blog_page` (a DOM-plus-network probe, abstracted
whole — its result only selects which page feeds the oracle); `urljoin` and
`netloc` are `urllib.parse.urljoin` and `urlparse(url).netloc`. -/
structure AnalyzerDeps where
  fetch : String → String
  findArticleUrls : String → String → Nat → Bool → List String
  findBlogPage : String → Option String
  urljoin : String → String → String
  netloc : String → String

/-- `SiteAnalyzer.find_article_pages`: oracle discovery on the homepage, an
optional blog-page override (taken when the blog page yields at least one
URL; the source's `elif len(...) == 0: ... = []` branch is the identity),
then absolutization, the same-domain filter
(`netloc == self.domain or netloc == ''`), and truncation to `max_pages`.
`self.base_url` is the input stripped of trailing slashes; `self.domain` is
the netloc of the unstripped input (both per `__init__`). -/
def find_article_pages (deps : AnalyzerDeps) (base_url : String) (max_pages : Nat) :
    List String :=
  let base := rstrip_slash base_url
  let domain := deps.netloc base_url
  let homepage_html := deps.fetch base
  if homepage_html = "" then []
  else
    let rel0 := deps.findArticleUrls base homepage_html max_pages false
    let article_urls_relative :=
      match deps.findBlogPage homepage_html with
      | none => rel0
      | some blogUrl =>
        if blogUrl = "" then rel0
        else
          let blog_html := deps.fetch blogUrl
          if blog_html = "" then rel0
          else
            let blog_urls := deps.findArticleUrls blogUrl blog_html 30 true
            if 0 < blog_urls.length then blog_urls else rel0
    let article_urls :=
      (article_urls_relative.map (fun url =>
        if strStartsWith url "http" then url else deps.urljoin base url)).filter
        (fun fu => deps.netloc fu = domain || deps.netloc fu = "")
    article_urls.take max_pages

/-- `SiteAnalyzer.get_article_samples`: re-runs discovery with
`max_pages = num_samples * 2`, then fetches the first `num_samples`
candidates, skipping (not retrying) any whose fetch fails. -/
def get_article_samples (deps : AnalyzerDeps) (base_url : String) (num_samples : Nat) :
    List ArticleSample :=
  let article_urls := find_article_pages deps base_url (num_samples * 2)
  (article_urls.take num_samples).filterMap (fun url =>
    let html := deps.fetch url
    if html = "" then none else some ⟨url, html⟩)

/-- `SiteAnalyzer.analyze`: note that `article_urls` (discovery with
`max_pages = 30`) and `article_samples` (an independent discovery with
`max_pages = 10` inside `get_article_samples`) come from separate oracle
calls. -/
def analyze (deps : AnalyzerDeps) (base_url : String) : Analysis :=
  let base := rstrip_slash base_url
  let homepage_html := deps.fetch base
  let blog_page_url := deps.findBlogPage homepage_html
  let blog_page_html : Option String :=
    match blog_page_url with
    | none => none
    | some u => if u = "" then none else some (deps.fetch u)
  let article_urls := find_article_pages deps base_url 30
  let article_samples := get_article_samples deps base_url 5
  ⟨base, homepage_html, blog_page_html, blog_page_url, article_urls,
   article_samples, article_samples.length⟩

/-! ### Generator (`generator.py`) -/

/-- The outcome dict returned by `ScraperGenerator.generate` (the written
file paths are I/O artifacts and are not modelled). -/
structure GenResult where
  success : Bool
  error : Option String
  validation_score : Option ℚ
  selectors : Option SelectorSet
deriving DecidableEq

/-- `ScraperGenerator.generate`'s collaborators: the DOM queries, the body
probe for `_detect_spa`, the two oracle calls (`analyze_site_structure`
may raise, modelled as `Except`; `refine_selectors` never does, see above),
`_postprocess_selectors` (a DOM-and-regex fix-up abstracted whole — no claim
depends on its internals and it cannot affect the control flow), and
`urlparse(url).path`. -/
structure GenDeps where
  select : String → String → List Element
  selectOne : String → String → Option Element
  getBody : String → Option BodyInfo
  llmAnalyze : String → String → List ArticleSample → List String → Except String SelectorSet
  llmRefine : String → SelectorSet → ValidationResults → SelectorSet
  postprocess : SelectorSet → Analysis → SelectorSet
  urlPath : String → String

/-- `validation_html = analysis.get('blog_page_html') or analysis['homepage_html']`
(Python `or`: `None` and `""` both fall back to the homepage). -/
def validation_html (analysis : Analysis) : String :=
  match analysis.blog_page_html with
  | none => analysis.homepage_html
  | some h => if h = "" then analysis.homepage_html else h

/-- Steps 2-4 of `generate` after the oracle's first reply parsed to
`selectors0`: post-process, validate, then run the refinement loop.  Returns
the final `(selectors, validation, retry_count)`. -/
def generate_loop_result (deps : GenDeps) (analysis : Analysis) (maxRetries : Nat)
    (selectors0 : SelectorSet) : SelectorSet × ValidationResults × Nat :=
  let selectors1 := deps.postprocess selectors0 analysis
  let vhtml := validation_html analysis
  let validate := fun s =>
    validate_selectors deps.select deps.selectOne s vhtml analysis.article_samples
  let refine := fun s v => deps.llmRefine analysis.base_url s v
  refine_loop validate refine maxRetries selectors1 (validate selectors1) 0

/-- The generator's no-articles diagnostic (full prose elided). -/
def no_articles_message : String :=
  "No article/blog posts found on this website."

/-- The generator's SPA diagnostic, carrying the matched indicators (full
prose elided). -/
def spa_error_message (indicators : List String) : String :=
  "This website appears to use JavaScript rendering: " ++
    String.intercalate ", " indicators

/-- `ScraperGenerator.generate` (printing and file writes elided): homepage
fetch failure and the empty-samples case return `success: False` dicts; an
exception from the first oracle call propagates; otherwise — whether or not
the refinement loop ended above threshold — the final selectors get
`blog_page_path` (`urlparse(blog_page_url).path`, or `'/'` when there is no
blog page) and a `success: True` dict carrying the final score is returned. -/
def generate (deps : GenDeps) (analysis : Analysis) (maxRetries : Nat) :
    Except String GenResult :=
  if analysis.homepage_html = "" then
    Except.ok ⟨false, some "Failed to fetch homepage", none, none⟩
  else if analysis.article_samples.length = 0 then
    Except.ok ⟨false,
      some (if generator_spa_verdict deps.getBody analysis.homepage_html then
              spa_error_message (detect_spa deps.getBody analysis.homepage_html)
            else no_articles_message),
      none, none⟩
  else
    match deps.llmAnalyze analysis.base_url analysis.homepage_html
        analysis.article_samples analysis.article_urls with
    | Except.error e => Except.error e
    | Except.ok selectors0 =>
      let r := generate_loop_result deps analysis maxRetries selectors0
      let blogPath : String :=
        match analysis.blog_page_url with
        | none => "/"
        | some u => if u = "" then "/" else deps.urlPath u
      let finalSel := { r.1 with blog_page_path := some blogPath }
      Except.ok ⟨true, none, some r.2.1.overall_score, some finalSel⟩

/-! ### Batch driver (`ScraperGenerator.generate_batch`) -/

/-- Python-dict insertion on an association list: updating an existing key
keeps its position, a new key is appended (CPython insertion order). -/
def dictInsert (k : String) (v : GenResult) :
    List (String × GenResult) → List (String × GenResult)
  | [] => [(k, v)]
  | (k', v') :: rest =>
    if k' = k then (k, v) :: rest else (k', v') :: dictInsert k v rest

/-- One iteration of the batch loop's body: `generate`'s outcome, or — when it
raises — the `except` clause's `{'success': False, 'error': str(e)}` record,
so a failing site never aborts the loop. -/
def batch_outcome (gen : String → Except String GenResult) (url : String) : GenResult :=
  match gen url with
  | Except.ok r => r
  | Except.error e => ⟨false, some e, none, none⟩

/-- `ScraperGenerator.generate_batch` over an abstract per-site generator
(report writing and statistics printing elided): a dict keyed by URL, filled
in input order. -/
def generate_batch (gen : String → Except String GenResult)
    (site_urls : List String) : List (String × GenResult) :=
  site_urls.foldl (fun results url => dictInsert url (batch_outcome gen url) results) []

/-! ### Local mode (`--local`) -/

/-- Modelled from the spec: `SiteAnalyzer._find_local_html_files` is absent
from src/ — only its test (`tests/test_analyzer_local.py`), the generator
test, and `main.py`'s `--local` flag reference it.  Per the spec (§4.3 local
mode, §8 property 9), local mode walks the directory tree collecting HTML
files and explicitly excludes the root index document.  A directory tree is
modelled as the list of its file paths relative to the root. -/
def find_local_html_files (tree : List String) (max_files : Nat) : List String :=
  ((tree.filter (fun p => strEndsWith p ".html")).filter
    (fun p => p ≠ "index.html")).take max_files

/-! ### Concrete fixtures (used to instantiate the quantified collaborators) -/

/-- Fixture DOM: every selector query returns one element with a link. -/
def fixSelect : String → String → List Element := fun _ _ => [⟨some "/blog/p1/", "p1"⟩]

/-- Fixture DOM: every single-element query returns a titled node. -/
def fixSelectOne : String → String → Option Element := fun _ _ => some ⟨none, "Title"⟩

/-- Fixture DOM: every selector query misses. -/
def emptySelect : String → String → List Element := fun _ _ => []

/-- Fixture DOM: every single-element query misses. -/
def emptySelectOne : String → String → Option Element := fun _ _ => none

/-- Fixture: the all-absent selector record. -/
def noneSelectors : SelectorSet := ⟨none, none, none, none, none, none, none, none⟩

/-- Fixture: link and title selectors present, the rest absent. -/
def fixSelectors : SelectorSet :=
  ⟨some "a[href]", some "h1", none, none, none, none, none, none⟩

/-- Fixture: one successfully fetched article sample. -/
def fixSamples : List ArticleSample := [⟨"http://s/a1", "<html>a1</html>"⟩]

/-- Fixture: a validation-result value whose score is 0 (what the validator
returns when nothing matches). -/
def stubValidation : ValidationResults :=
  ⟨⟨false, 0, none⟩, ⟨0, 0, 0, []⟩, ⟨0, 0, 0, []⟩, ⟨0, 0, 0, []⟩, ⟨0, 0, 0, []⟩, 0⟩

/-- Fixture generator collaborators: empty DOM, an oracle whose first reply
parses to the all-absent selector set, an identity refine oracle and identity
post-processing. -/
def wGenDeps : GenDeps :=
  ⟨emptySelect, emptySelectOne, fun _ => none,
   fun _ _ _ _ => Except.ok noneSelectors, fun _ s _ => s, fun s _ => s, fun _ => "/"⟩

/-- Fixture analysis: homepage fetched, one article sample, no blog page. -/
def wAnalysis : Analysis := ⟨"http://e", "<html>", none, none, [], fixSamples, 1⟩

/-- Analyzer collaborators exhibiting the oracle's freedom: the discovery call
with `max_articles = 30` (used for `analyze`'s `article_urls`) answers a
duplicated URL, while the `max_articles = 10` call (used for sampling)
answers a different URL; every fetch succeeds; no blog page. -/
def cexDeps : AnalyzerDeps :=
  ⟨fun _ => "<html>",
   fun _ _ maxA _ => if maxA = 30 then ["http://a/y", "http://a/y"] else ["http://a/z"],
   fun _ => none,
   fun _ u => u,
   fun _ => "a"⟩

/-! ## Theorems -/

/-- The `found` flag of the link check is exactly "the hit count is nonzero". -/
theorem links_found_iff_count_ne_zero (select : String → String → List Element)
    (selector : Option String) (html : String) :
    (validate_article_links select selector html).found = true ↔
      (validate_article_links select selector html).count ≠ 0 := by
  unfold validate_article_links
  cases selector with
  | none => simp
  | some sel =>
    by_cases h : sel = "" ∨ html = ""
    · simp [h]
    · simp only [h, if_false]
      simp [Nat.pos_iff_ne_zero]

theorem validate_selectors_links (select : String → String → List Element)
    (selectOne : String → String → Option Element) (selectors : SelectorSet)
    (html : String) (samples : List ArticleSample) :
    (validate_selectors select selectOne selectors html samples).article_links =
      validate_article_links select selectors.article_links_selector html := rfl

theorem validate_selectors_title (select : String → String → List Element)
    (selectOne : String → String → Option Element) (selectors : SelectorSet)
    (html : String) (samples : List ArticleSample) :
    (validate_selectors select selectOne selectors html samples).title =
      validate_field selectOne selectors.title_selector samples := rfl

theorem validate_selectors_content (select : String → String → List Element)
    (selectOne : String → String → Option Element) (selectors : SelectorSet)
    (html : String) (samples : List ArticleSample) :
    (validate_selectors select selectOne selectors html samples).content =
      validate_field selectOne selectors.content_selector samples := rfl

/-- Closed form of `overall_score`: 0 when the link gate fails, otherwise the
mean of `1.0` and the strictly positive title/content rates. -/
theorem validate_selectors_score (select : String → String → List Element)
    (selectOne : String → String → Option Element) (selectors : SelectorSet)
    (html : String) (samples : List ArticleSample) :
    (validate_selectors select selectOne selectors html samples).overall_score =
      if (validate_article_links select selectors.article_links_selector html).found then
        ((1 : ℚ) +
            (if 0 < (validate_field selectOne selectors.title_selector samples).success_rate
             then (validate_field selectOne selectors.title_selector samples).success_rate
             else 0) +
            (if 0 < (validate_field selectOne selectors.content_selector samples).success_rate
             then (validate_field selectOne selectors.content_selector samples).success_rate
             else 0)) /
          ((1 : ℚ) +
            (if 0 < (validate_field selectOne selectors.title_selector samples).success_rate
             then (1 : ℚ) else 0) +
            (if 0 < (validate_field selectOne selectors.content_selector samples).success_rate
             then (1 : ℚ) else 0))
      else 0 := by
  unfold validate_selectors
  cases hf : (validate_article_links select selectors.article_links_selector html).found with
  | false => simp [hf]
  | true =>
    by_cases h1 : 0 < (validate_field selectOne selectors.title_selector samples).success_rate <;>
      by_cases h2 : 0 < (validate_field selectOne selectors.content_selector samples).success_rate <;>
        simp [hf, h1, h2] <;> norm_num <;> ring

/-- With an empty sample list every per-field success rate is 0 (the division
guard, not a division by zero). -/
theorem validate_field_nil_rate (selectOne : String → String → Option Element)
    (selector : Option String) :
    (validate_field selectOne selector []).success_rate = 0 := by
  unfold validate_field
  cases selector with
  | none => rfl
  | some sel =>
    by_cases h : sel = ""
    · simp [h]
    · simp [h]

/-- The link check on empty HTML (or with an absent/empty selector) is the
degenerate `{'found': False, 'count': 0}` record. -/
theorem validate_article_links_empty_html (select : String → String → List Element)
    (selector : Option String) :
    validate_article_links select selector "" = ⟨false, 0, none⟩ := by
  unfold validate_article_links
  cases selector with
  | none => rfl
  | some sel => simp

/-- C1: `validate_selectors` yields `overall_score = 0` exactly when the
`article_links_selector` found zero elements with a non-empty `href` in the
given HTML (the count being 0 also covers an absent/empty selector and empty
HTML); any nonzero link count forces a strictly positive score, however the
title/content selectors fare. -/
theorem C1_link_gate_iff (select : String → String → List Element)
    (selectOne : String → String → Option Element) (selectors : SelectorSet)
    (html : String) (samples : List ArticleSample) :
    (validate_selectors select selectOne selectors html samples).overall_score = 0 ↔
      (validate_selectors select selectOne selectors html samples).article_links.count = 0 := by
  rw [validate_selectors_score, validate_selectors_links]
  have hiff := links_found_iff_count_ne_zero select selectors.article_links_selector html
  cases hf : (validate_article_links select selectors.article_links_selector html).found with
  | false =>
    have hcnt : (validate_article_links select selectors.article_links_selector html).count = 0 := by
      by_contra hne
      have h2 := hiff.mpr hne
      rw [hf] at h2
      exact Bool.noConfusion h2
    simp [hcnt]
  | true =>
    have hcnt := hiff.mp hf
    set t := (validate_field selectOne selectors.title_selector samples).success_rate with ht
    set c := (validate_field selectOne selectors.content_selector samples).success_rate with hc
    have hnum : 0 < (1 : ℚ) + (if 0 < t then t else 0) + (if 0 < c then c else 0) := by
      have ha : 0 ≤ (if 0 < t then t else 0) := by split <;> linarith
      have hb : 0 ≤ (if 0 < c then c else 0) := by split <;> linarith
      linarith
    have hden : 0 < (1 : ℚ) + (if 0 < t then (1 : ℚ) else 0) + (if 0 < c then (1 : ℚ) else 0) := by
      have ha : 0 ≤ (if 0 < t then (1 : ℚ) else 0) := by split <;> norm_num
      have hb : 0 ≤ (if 0 < c then (1 : ℚ) else 0) := by split <;> norm_num
      linarith
    have hpos := div_pos hnum hden
    simp [hf, hcnt, hpos.ne']

/-- C2: once the link gate passes, `overall_score` is the arithmetic mean of
the multiset `{1.0} ∪ {title rate if positive} ∪ {content rate if positive}`;
the date/author selectors never influence the score; and a set with a perfect
title rate and no content selector scores exactly 1. -/
theorem C2_field_exclusion (select : String → String → List Element)
    (selectOne : String → String → Option Element) (selectors : SelectorSet)
    (html : String) (samples : List ArticleSample)
    (hfound : (validate_selectors select selectOne selectors html samples).article_links.found
      = true) :
    ((validate_selectors select selectOne selectors html samples).overall_score =
      ((1 : ℚ) +
          (if 0 < (validate_selectors select selectOne selectors html samples).title.success_rate
           then (validate_selectors select selectOne selectors html samples).title.success_rate
           else 0) +
          (if 0 < (validate_selectors select selectOne selectors html samples).content.success_rate
           then (validate_selectors select selectOne selectors html samples).content.success_rate
           else 0)) /
        ((1 : ℚ) +
          (if 0 < (validate_selectors select selectOne selectors html samples).title.success_rate
           then (1 : ℚ) else 0) +
          (if 0 < (validate_selectors select selectOne selectors html samples).content.success_rate
           then (1 : ℚ) else 0)))
    ∧ (∀ ds as : Option String,
        (validate_selectors select selectOne
            { selectors with date_selector := ds, author_selector := as }
            html samples).overall_score =
          (validate_selectors select selectOne selectors html samples).overall_score)
    ∧ ((validate_selectors select selectOne selectors html samples).title.success_rate = 1 →
        selectors.content_selector = none →
        (validate_selectors select selectOne selectors html samples).overall_score = 1) := by
  rw [validate_selectors_links] at hfound
  refine ⟨?_, ?_, ?_⟩
  · rw [validate_selectors_score, validate_selectors_title, validate_selectors_content, hfound]
    simp
  · intro ds as
    rfl
  · intro hT hC
    rw [validate_selectors_title] at hT
    rw [validate_selectors_score, hfound, hC]
    have h0 : (validate_field selectOne (none : Option String) samples).success_rate = 0 := rfl
    rw [h0, hT]
    norm_num

/-- C10: the validator is total on degenerate inputs — an empty sample list
gives every per-field success rate 0 (division guarded); an absent
`article_links_selector` or empty listing HTML gives the degenerate
`{'found': False, 'count': 0}` link record; an absent field selector gives a
zero-rate field record with empty examples.  (Totality itself is inherent in
the embedding: every branch returns a value, mirroring the guarded source.) -/
theorem C10_degenerate_inputs (select : String → String → List Element)
    (selectOne : String → String → Option Element) (selectors : SelectorSet)
    (html : String) (samples : List ArticleSample) :
    ((validate_selectors select selectOne selectors html []).title.success_rate = 0
      ∧ (validate_selectors select selectOne selectors html []).content.success_rate = 0
      ∧ (validate_selectors select selectOne selectors html []).date.success_rate = 0
      ∧ (validate_selectors select selectOne selectors html []).author.success_rate = 0)
    ∧ (selectors.article_links_selector = none →
        (validate_selectors select selectOne selectors html samples).article_links =
          ⟨false, 0, none⟩)
    ∧ (validate_selectors select selectOne selectors "" samples).article_links =
        ⟨false, 0, none⟩
    ∧ (selectors.title_selector = none →
        (validate_selectors select selectOne selectors html samples).title =
          ⟨0, 0, samples.length, []⟩) := by
  refine ⟨⟨?_, ?_, ?_, ?_⟩, ?_, ?_, ?_⟩
  · exact validate_field_nil_rate selectOne selectors.title_selector
  · exact validate_field_nil_rate selectOne selectors.content_selector
  · exact validate_field_nil_rate selectOne selectors.date_selector
  · exact validate_field_nil_rate selectOne selectors.author_selector
  · intro h
    rw [validate_selectors_links, h]
    rfl
  · rw [validate_selectors_links]
    exact validate_article_links_empty_html select selectors.article_links_selector
  · intro h
    rw [validate_selectors_title, h]
    rfl

/-- C2 witness: a found link, a perfect title selector and no content
selector give overall score exactly 1 (not 0.5). -/
theorem C2_field_exclusion_witness :
    (validate_selectors fixSelect fixSelectOne fixSelectors "<html>" fixSamples).overall_score
      = 1 :=
  (C2_field_exclusion fixSelect fixSelectOne fixSelectors "<html>" fixSamples rfl).2.2
    (by show ((1 : ℕ) : ℚ) / ((1 : ℕ) : ℚ) = 1; norm_num) rfl

/-- C10 witness: concrete degenerate inputs evaluated. -/
theorem C10_degenerate_inputs_witness :
    (validate_selectors emptySelect emptySelectOne noneSelectors "<html>" []).title.success_rate
        = 0
    ∧ (validate_selectors emptySelect emptySelectOne noneSelectors "<html>"
        fixSamples).article_links = ⟨false, 0, none⟩ :=
  ⟨(C10_degenerate_inputs emptySelect emptySelectOne noneSelectors "<html>" fixSamples).1.1,
   (C10_degenerate_inputs emptySelect emptySelectOne noneSelectors "<html>" fixSamples).2.1 rfl⟩

/-- `is_valid` at the default threshold is false exactly when the score is
strictly below 0.6. -/
theorem is_valid_false_iff (v : ValidationResults) :
    is_valid v (3 / 5) = false ↔ v.overall_score < 3 / 5 := by
  simp [is_valid, not_le]

/-- The loop's retry counter never exceeds its starting value plus the fuel
(the remaining retry budget). -/
theorem refine_loop_retry_bound (validate : SelectorSet → ValidationResults)
    (refine : SelectorSet → ValidationResults → SelectorSet) :
    ∀ (fuel : Nat) (s : SelectorSet) (v : ValidationResults) (rc : Nat),
      (refine_loop validate refine fuel s v rc).2.2 ≤ rc + fuel := by
  intro fuel
  induction fuel with
  | zero => intro s v rc; simp [refine_loop]
  | succ f ih =>
    intro s v rc
    rw [refine_loop]
    by_cases h : is_valid v (3 / 5) = true
    · simp [h]
    · simp only [h, Bool.false_eq_true, if_false]
      calc (refine_loop validate refine f (refine s v) (validate (refine s v)) (rc + 1)).2.2
          ≤ (rc + 1) + f := ih _ _ _
        _ ≤ rc + (f + 1) := by omega

/-- When every validation the oracle can produce is below threshold, the loop
burns its whole budget and ends invalid. -/
theorem refine_loop_exhaust (validate : SelectorSet → ValidationResults)
    (refine : SelectorSet → ValidationResults → SelectorSet)
    (hval : ∀ s, is_valid (validate s) (3 / 5) = false) :
    ∀ (fuel : Nat) (s : SelectorSet) (v : ValidationResults) (rc : Nat),
      is_valid v (3 / 5) = false →
      (refine_loop validate refine fuel s v rc).2.2 = rc + fuel ∧
      is_valid (refine_loop validate refine fuel s v rc).2.1 (3 / 5) = false := by
  intro fuel
  induction fuel with
  | zero => intro s v rc hv; exact ⟨rfl, hv⟩
  | succ f ih =>
    intro s v rc hv
    rw [refine_loop]
    simp only [hv, Bool.false_eq_true, if_false]
    have h := ih (refine s v) (validate (refine s v)) (rc + 1) (hval _)
    exact ⟨by rw [h.1]; omega, h.2⟩

/-- C3: with `max_retries = 2` and an oracle whose every returned selector set
validates below the 0.6 threshold, the loop performs exactly 2 refinements —
3 validation passes in total (the initial one plus one per refinement) — and
ends Exhausted, not Accepted (final score below threshold, retry counter at
`max_retries`); and for any budget and any oracle, the loop performs at most
`max_retries` refinement iterations. -/
theorem C3_loop_termination :
    (∀ (validate : SelectorSet → ValidationResults)
        (refine : SelectorSet → ValidationResults → SelectorSet)
        (s0 : SelectorSet) (v0 : ValidationResults),
      (∀ s, (validate s).overall_score < 3 / 5) → v0.overall_score < 3 / 5 →
        (refine_loop validate refine 2 s0 v0 0).2.2 = 2 ∧
        1 + (refine_loop validate refine 2 s0 v0 0).2.2 = 3 ∧
        is_valid (refine_loop validate refine 2 s0 v0 0).2.1 (3 / 5) = false)
    ∧ (∀ (validate : SelectorSet → ValidationResults)
        (refine : SelectorSet → ValidationResults → SelectorSet)
        (maxRetries : Nat) (s0 : SelectorSet) (v0 : ValidationResults),
        (refine_loop validate refine maxRetries s0 v0 0).2.2 ≤ maxRetries) := by
  constructor
  · intro validate refine s0 v0 hv hv0
    have h0 : is_valid v0 (3 / 5) = false := (is_valid_false_iff v0).mpr hv0
    have h1 : ∀ s, is_valid (validate s) (3 / 5) = false :=
      fun s => (is_valid_false_iff (validate s)).mpr (hv s)
    have h := refine_loop_exhaust validate refine h1 2 s0 v0 0 h0
    exact ⟨by rw [h.1], by rw [h.1], h.2⟩
  · intro validate refine maxRetries s0 v0
    simpa using refine_loop_retry_bound validate refine maxRetries s0 v0 0

/-- C3 witness: a stub oracle that always scores 0 exhausts the budget in
exactly 2 retries and ends invalid. -/
theorem C3_loop_termination_witness :
    (refine_loop (fun _ => stubValidation) (fun s _ => s) 2 noneSelectors stubValidation 0).2.2
        = 2
    ∧ is_valid
        (refine_loop (fun _ => stubValidation) (fun s _ => s) 2 noneSelectors
          stubValidation 0).2.1 (3 / 5) = false := by
  have h := C3_loop_termination.1 (fun _ => stubValidation) (fun s _ => s) noneSelectors
    stubValidation (fun _ => by norm_num [stubValidation]) (by norm_num [stubValidation])
  exact ⟨h.1, h.2.2⟩

/-- C4: when the guards pass (homepage fetched, samples found, first oracle
reply parsed) `generate` returns `success: True` carrying the refinement
loop's final score — also, in particular, when that score is below the 0.6
threshold (Exhausted): the below-threshold result is reported, not
discarded. -/
theorem C4_exhausted_reported (deps : GenDeps) (analysis : Analysis) (maxRetries : Nat)
    (selectors0 : SelectorSet)
    (h1 : analysis.homepage_html ≠ "")
    (h2 : analysis.article_samples.length ≠ 0)
    (h3 : deps.llmAnalyze analysis.base_url analysis.homepage_html analysis.article_samples
        analysis.article_urls = Except.ok selectors0)
    (h4 : (generate_loop_result deps analysis maxRetries selectors0).2.1.overall_score < 3 / 5) :
    ∃ finalSel : SelectorSet,
      generate deps analysis maxRetries = Except.ok
        ⟨true, none,
         some (generate_loop_result deps analysis maxRetries selectors0).2.1.overall_score,
         some finalSel⟩
      ∧ is_valid (generate_loop_result deps analysis maxRetries selectors0).2.1 (3 / 5)
          = false := by
  unfold generate
  rw [if_neg h1, if_neg h2, h3]
  exact ⟨_, rfl, by simp [is_valid, not_le.mpr h4]⟩

/-- With the empty DOM every selector set fails the link gate, so every
validation scores 0. -/
theorem empty_dom_score (s : SelectorSet) (html : String) (samples : List ArticleSample) :
    (validate_selectors emptySelect emptySelectOne s html samples).overall_score = 0 := by
  rw [validate_selectors_score]
  have hfound : (validate_article_links emptySelect s.article_links_selector html).found
      = false := by
    unfold validate_article_links
    cases s.article_links_selector with
    | none => rfl
    | some sel =>
      by_cases h : sel = "" ∨ html = ""
      · simp [h]
      · simp [h, emptySelect]
  simp [hfound]

/-- C4 witness: a run whose every validation scores 0 (below threshold)
still produces a `success: True` outcome carrying that score. -/
theorem C4_exhausted_reported_witness :
    (∃ finalSel : SelectorSet,
      generate wGenDeps wAnalysis 2 = Except.ok
        ⟨true, none,
         some (generate_loop_result wGenDeps wAnalysis 2 noneSelectors).2.1.overall_score,
         some finalSel⟩
      ∧ is_valid (generate_loop_result wGenDeps wAnalysis 2 noneSelectors).2.1 (3 / 5) = false)
    ∧ (generate_loop_result wGenDeps wAnalysis 2 noneSelectors).2.1.overall_score < 3 / 5 := by
  have hval : ∀ s : SelectorSet,
      is_valid (validate_selectors emptySelect emptySelectOne s "<html>" fixSamples) (3 / 5)
        = false :=
    fun s => (is_valid_false_iff _).mpr (by rw [empty_dom_score]; norm_num)
  have hloop := refine_loop_exhaust
    (fun s => validate_selectors emptySelect emptySelectOne s "<html>" fixSamples)
    (fun s _ => s) hval 2 noneSelectors
    (validate_selectors emptySelect emptySelectOne noneSelectors "<html>" fixSamples) 0
    (hval noneSelectors)
  have hlt : (generate_loop_result wGenDeps wAnalysis 2 noneSelectors).2.1.overall_score
      < 3 / 5 :=
    (is_valid_false_iff _).mp hloop.2
  exact ⟨C4_exhausted_reported wGenDeps wAnalysis 2 noneSelectors (by decide) (by decide)
    rfl hlt, hlt⟩

/-- C5 counterexample: on a reply from which no JSON parses, `refine_selectors`
does not fail — it silently returns the previous (fallback) selector set
unchanged, contradicting the claim that both calls fail explicitly. -/
theorem C5_refine_silent_fallback :
    refine_selectors (fun _ => none) fixSelectors (Except.ok "no json here") = fixSelectors :=
  rfl

/-- C5 (amended): on total parse failure the initial inference call
`analyze_site_structure` fails explicitly (its handler re-raises), but the
refinement call `refine_selectors` does not: its handler returns
`current_selectors` unchanged — silently, for parse failures and network
errors alike. -/
theorem C5_parse_failure_paths (jsonLoads : String → Option SelectorSet)
    (current : SelectorSet) (content : String)
    (hfail : jsonLoads (extract_json_block content) = none) :
    analyze_site_structure jsonLoads (Except.ok content) =
      Except.error "Error calling LLM API: JSONDecodeError"
    ∧ refine_selectors jsonLoads current (Except.ok content) = current
    ∧ (∀ e, refine_selectors jsonLoads current (Except.error e) = current) := by
  refine ⟨?_, ?_, fun e => rfl⟩
  · simp only [analyze_site_structure, hfail]
  · simp only [refine_selectors, hfail]

/-- C5 witness: a concrete unparsable reply — the initial call errors, the
refinement call returns its input set. -/
theorem C5_parse_failure_paths_witness :
    analyze_site_structure (fun _ => none) (Except.ok "garbage") =
      Except.error "Error calling LLM API: JSONDecodeError"
    ∧ refine_selectors (fun _ => none) noneSelectors (Except.ok "garbage") = noneSelectors :=
  ⟨(C5_parse_failure_paths (fun _ => none) noneSelectors "garbage" rfl).1,
   (C5_parse_failure_paths (fun _ => none) noneSelectors "garbage" rfl).2.1⟩

/-- Every URL kept by `find_article_pages` passed the same-origin filter. -/
theorem find_article_pages_origin (deps : AnalyzerDeps) (base_url : String)
    (max_pages : Nat) :
    ∀ u ∈ find_article_pages deps base_url max_pages,
      deps.netloc u = deps.netloc base_url ∨ deps.netloc u = "" := by
  intro u hu
  unfold find_article_pages at hu
  by_cases h : deps.fetch (rstrip_slash base_url) = ""
  · simp [h] at hu
  · simp only [h, if_false] at hu
    have hu2 := List.mem_of_mem_take hu
    have hp := List.of_mem_filter hu2
    simpa using hp

/-- `find_article_pages` keeps at most `max_pages` candidates. -/
theorem find_article_pages_length_le (deps : AnalyzerDeps) (base_url : String)
    (max_pages : Nat) :
    (find_article_pages deps base_url max_pages).length ≤ max_pages := by
  unfold find_article_pages
  by_cases h : deps.fetch (rstrip_slash base_url) = ""
  · simp [h]
  · simp only [h, if_false]
    exact List.length_take_le _ _

/-- Every sample kept by `get_article_samples` was fetched successfully and
its URL comes from the sampling run's own candidate list. -/
theorem get_article_samples_spec (deps : AnalyzerDeps) (base_url : String)
    (num_samples : Nat) :
    ∀ s ∈ get_article_samples deps base_url num_samples,
      s.html ≠ "" ∧ s.url ∈ find_article_pages deps base_url (num_samples * 2) := by
  intro s hs
  unfold get_article_samples at hs
  rw [List.mem_filterMap] at hs
  obtain ⟨url, hurl, hmap⟩ := hs
  by_cases h : deps.fetch url = ""
  · simp [h] at hmap
  · simp only [h, if_false, Option.some.injEq] at hmap
    subst hmap
    exact ⟨h, List.mem_of_mem_take hurl⟩

/-- C6 counterexample: with this deterministic oracle, `analyze`'s
`article_urls` contains a duplicate and the fetched sample's URL is not in
`article_urls` at all — the sampling pass is a separate oracle call with a
different `max_articles`, and nothing deduplicates, so the claimed
no-duplicates and strict-subset invariants both fail. -/
theorem C6_invariants_fail :
    ¬ ((analyze cexDeps "http://example.com").article_urls.Nodup ∧
       ∀ s ∈ (analyze cexDeps "http://example.com").article_samples,
         s.url ∈ (analyze cexDeps "http://example.com").article_urls) := by
  decide

/-- C6 (amended): what `analyze` does guarantee — every candidate URL passed
the same-origin filter (netloc equal to `base_url`'s netloc, or empty), at
most 30 candidates are kept, and every article sample was fetched
successfully (non-empty HTML) with its URL drawn from the sampling run's own
candidate list (`find_article_pages` with `max_pages = 5 * 2`).
Deduplication and sample-URLs ⊆ `article_urls` do not hold (see the
counterexample): the two lists come from separate oracle calls and no dedup
pass exists. -/
theorem C6_analysis_invariants (deps : AnalyzerDeps) (base_url : String) :
    (∀ u ∈ (analyze deps base_url).article_urls,
      deps.netloc u = deps.netloc base_url ∨ deps.netloc u = "")
    ∧ (analyze deps base_url).article_urls.length ≤ 30
    ∧ (∀ s ∈ (analyze deps base_url).article_samples,
        s.html ≠ "" ∧ s.url ∈ find_article_pages deps base_url (5 * 2)) :=
  ⟨find_article_pages_origin deps base_url 30,
   find_article_pages_length_le deps base_url 30,
   get_article_samples_spec deps base_url 5⟩

/-- C6 witness: the amended guarantees evaluated at the concrete analyzer run
of the counterexample. -/
theorem C6_analysis_invariants_witness :
    (cexDeps.netloc "http://a/y" = cexDeps.netloc "http://example.com"
      ∨ cexDeps.netloc "http://a/y" = "")
    ∧ ((⟨"http://a/z", "<html>"⟩ : ArticleSample).html ≠ ""
      ∧ "http://a/z" ∈ find_article_pages cexDeps "http://example.com" (5 * 2)) :=
  ⟨(C6_analysis_invariants cexDeps "http://example.com").1 "http://a/y" (by decide),
   (C6_analysis_invariants cexDeps "http://example.com").2.2 ⟨"http://a/z", "<html>"⟩
     (by decide)⟩

/-- A conditional singleton contributes its condition's `toNat` to a length. -/
theorem length_cond_singleton (b : Bool) (s : String) :
    (if b then [s] else []).length = b.toNat := by
  cases b <;> rfl

/-- A true-implication between Booleans is monotone on `toNat`. -/
theorem bool_toNat_mono {b1 b2 : Bool} (h : b1 = true → b2 = true) :
    b1.toNat ≤ b2.toNat := by
  cases b1 with
  | false => cases b2 <;> simp
  | true => simp [h rfl]

/-- The body block of `_detect_spa` contributes exactly the combined body
signal. -/
theorem spa_body_match_length (getBody : String → Option BodyInfo) (html : String) :
    (match getBody html with
     | none => ([] : List String)
     | some b => spa_body_block b).length = (spa_body_signal getBody html).toNat := by
  have block_length : ∀ b : BodyInfo,
      (spa_body_block b).length =
        (decide (5000 < b.scripts_length ∧ b.text_length < 500) ||
          decide (15000 < b.scripts_length ∧
            (6 : ℚ) / 5 < (b.scripts_length : ℚ) / ((max 1 b.text_length : Nat) : ℚ))).toNat := by
    intro b
    unfold spa_body_block
    by_cases hc1 : 5000 < b.scripts_length ∧ b.text_length < 500
    · rw [if_pos hc1, decide_eq_true hc1]
      rfl
    · rw [if_neg hc1, decide_eq_false hc1]
      by_cases hc2 : 15000 < b.scripts_length ∧
          (6 : ℚ) / 5 < (b.scripts_length : ℚ) / ((max 1 b.text_length : Nat) : ℚ)
      · rw [if_pos hc2, decide_eq_true hc2]
        rfl
      · rw [if_neg hc2, decide_eq_false hc2]
        rfl
  unfold spa_body_signal
  cases getBody html with
  | none => rfl
  | some b => exact block_length b

/-- `_detect_spa`'s indicator count is the number of matched signals. -/
theorem detect_spa_length (getBody : String → Option BodyInfo) (html : String) :
    (detect_spa getBody html).length =
      (spa_react html).toNat + (spa_vue html).toNat + (spa_angular html).toNat +
      (spa_next html).toNat + (spa_nuxt html).toNat + (spa_root_div html).toNat +
      (spa_webpack html).toNat + (spa_newrelic html).toNat +
      (spa_body_signal getBody html).toNat := by
  unfold detect_spa
  simp only [List.length_append, length_cond_singleton, spa_body_match_length]
  try omega

/-- C7: the SPA detector's indicator count is monotone in the set of matched
signals — any two inputs where each signal of the first implies the same
signal of the second have ordered indicator counts; an input matching no
signal yields the empty indicator list; and an empty indicator list never
produces a JS-rendered verdict, neither in the generator (Python list
truthiness) nor in the agent variant (which requires at least 3
indicators). -/
theorem C7_spa_monotonicity :
    (∀ (gb1 gb2 : String → Option BodyInfo) (h1 h2 : String),
      (spa_react h1 = true → spa_react h2 = true) →
      (spa_vue h1 = true → spa_vue h2 = true) →
      (spa_angular h1 = true → spa_angular h2 = true) →
      (spa_next h1 = true → spa_next h2 = true) →
      (spa_nuxt h1 = true → spa_nuxt h2 = true) →
      (spa_root_div h1 = true → spa_root_div h2 = true) →
      (spa_webpack h1 = true → spa_webpack h2 = true) →
      (spa_newrelic h1 = true → spa_newrelic h2 = true) →
      (spa_body_signal gb1 h1 = true → spa_body_signal gb2 h2 = true) →
      (detect_spa gb1 h1).length ≤ (detect_spa gb2 h2).length)
    ∧ (∀ (gb : String → Option BodyInfo) (h : String),
        spa_react h = false → spa_vue h = false → spa_angular h = false →
        spa_next h = false → spa_nuxt h = false → spa_root_div h = false →
        spa_webpack h = false → spa_newrelic h = false → spa_body_signal gb h = false →
        detect_spa gb h = [])
    ∧ (∀ (gb : String → Option BodyInfo) (h : String),
        detect_spa gb h = [] → generator_spa_verdict gb h = false)
    ∧ (∀ dv : AgentDomView, agent_spa_indicators dv = [] → agent_is_js_heavy dv = false) := by
  refine ⟨?_, ?_, ?_, ?_⟩
  · intro gb1 gb2 h1 h2 m1 m2 m3 m4 m5 m6 m7 m8 m9
    rw [detect_spa_length, detect_spa_length]
    have k1 := bool_toNat_mono m1
    have k2 := bool_toNat_mono m2
    have k3 := bool_toNat_mono m3
    have k4 := bool_toNat_mono m4
    have k5 := bool_toNat_mono m5
    have k6 := bool_toNat_mono m6
    have k7 := bool_toNat_mono m7
    have k8 := bool_toNat_mono m8
    have k9 := bool_toNat_mono m9
    omega
  · intro gb h z1 z2 z3 z4 z5 z6 z7 z8 z9
    have hlen : (detect_spa gb h).length = 0 := by
      rw [detect_spa_length, z1, z2, z3, z4, z5, z6, z7, z8, z9]
      rfl
    exact List.length_eq_zero.mp hlen
  · intro gb h hnil
    simp [generator_spa_verdict, hnil]
  · intro dv hnil
    simp [agent_is_js_heavy, hnil]

/-- C7 witness: concrete pages — a benign page has no more indicators than a
React page, and a page with the empty indicator list draws no JS verdict in
either caller. -/
theorem C7_spa_monotonicity_witness :
    (detect_spa (fun _ => none) "plain page").length ≤
      (detect_spa (fun _ => none) "uses react runtime").length
    ∧ generator_spa_verdict (fun _ => none) "plain page" = false
    ∧ agent_is_js_heavy ⟨false, 2000, "plain", 0, 30, 5⟩ = false := by
  refine ⟨?_, ?_, ?_⟩
  · exact C7_spa_monotonicity.1 (fun _ => none) (fun _ => none) "plain page"
      "uses react runtime" (by decide) (by decide) (by decide) (by decide) (by decide)
      (by decide) (by decide) (by decide) (by decide)
  · exact C7_spa_monotonicity.2.2.1 (fun _ => none) "plain page"
      (C7_spa_monotonicity.2.1 (fun _ => none) "plain page" (by decide) (by decide)
        (by decide) (by decide) (by decide) (by decide) (by decide) (by decide) rfl)
  · exact C7_spa_monotonicity.2.2.2 ⟨false, 2000, "plain", 0, 30, 5⟩ (by decide)

/-- `dictInsert` of a fresh key appends at the end (insertion order). -/
theorem dictInsert_not_mem (k : String) (v : GenResult)
    (acc : List (String × GenResult)) (h : ∀ p ∈ acc, p.1 ≠ k) :
    dictInsert k v acc = acc ++ [(k, v)] := by
  induction acc with
  | nil => rfl
  | cons p rest ih =>
    obtain ⟨k', v'⟩ := p
    have hp : k' ≠ k := h (k', v') (List.mem_cons_self _ _)
    simp only [dictInsert, if_neg hp, List.cons_append, List.cons.injEq, true_and]
    exact ih (fun q hq => h q (List.mem_cons_of_mem _ hq))

/-- The batch fold over fresh keys appends one entry per URL in order. -/
theorem batch_foldl_acc (gen : String → Except String GenResult) :
    ∀ (urls : List String) (acc : List (String × GenResult)),
      urls.Nodup → (∀ u ∈ urls, ∀ p ∈ acc, p.1 ≠ u) →
      urls.foldl (fun results url => dictInsert url (batch_outcome gen url) results) acc =
        acc ++ urls.map (fun url => (url, batch_outcome gen url)) := by
  intro urls
  induction urls with
  | nil => intro acc _ _; simp
  | cons u rest ih =>
    intro acc hnd hdisj
    rw [List.foldl_cons,
      dictInsert_not_mem u _ acc (fun p hp => hdisj u (List.mem_cons_self _ _) p hp),
      ih (acc ++ [(u, batch_outcome gen u)]) (List.Nodup.of_cons hnd) ?_]
    · simp
    · intro x hx p hp
      rcases List.mem_append.mp hp with hin | hin
      · exact hdisj x (List.mem_cons_of_mem _ hx) p hin
      · have hpu : p = (u, batch_outcome gen u) := by simpa using hin
        rw [hpu]
        intro hux
        have hux2 : u = x := hux
        exact (List.nodup_cons.mp hnd).1 (by rw [hux2]; exact hx)

/-- C8 counterexample: for the duplicate input list `["a", "a"]` the report
dict has a single entry, not one per input site — `results[url] = ...`
overwrites the earlier entry. -/
theorem C8_batch_duplicate_collapse :
    ¬ ((generate_batch (fun _ => Except.error "boom") ["a", "a"]).length =
        (["a", "a"] : List String).length) := by
  decide

/-- C8 (amended): for an input list of distinct URLs, the report has exactly
one entry per input site, keyed by its URL, in input order; a site whose
generation raises is recorded as `{'success': False, 'error': message}` by
`batch_outcome` and processing continues with the remaining sites.  (With
duplicate input URLs the dict collapses them to one entry — see the
counterexample.) -/
theorem C8_batch_report (gen : String → Except String GenResult)
    (site_urls : List String) (hnodup : site_urls.Nodup) :
    generate_batch gen site_urls =
      site_urls.map (fun url => (url, batch_outcome gen url)) := by
  unfold generate_batch
  simpa using batch_foldl_acc gen site_urls [] hnodup (by simp)

/-- C8 witness: a two-site batch whose first site raises still reports both
sites, in input order, with the failure recorded. -/
theorem C8_batch_report_witness :
    generate_batch
        (fun u => if u = "http://a" then Except.error "boom"
                  else Except.ok ⟨true, none, some 1, none⟩)
        ["http://a", "http://b"] =
      [("http://a", ⟨false, some "boom", none, none⟩),
       ("http://b", ⟨true, none, some 1, none⟩)] := by
  rw [C8_batch_report _ _ (by decide)]
  rfl

/-- C9: local-mode discovery (spec-modelled, the source of
`_find_local_html_files` is not under src/) keeps nested HTML files —
`articles/index.html` and `articles/story.html` — and never returns the root
`index.html`, on any tree. -/
theorem C9_local_mode_exclusion :
    find_local_html_files ["index.html", "articles/index.html", "articles/story.html"] 5 =
      ["articles/index.html", "articles/story.html"]
    ∧ ∀ (tree : List String) (max_files : Nat),
        "index.html" ∉ find_local_html_files tree max_files := by
  constructor
  · decide
  · intro tree max_files hmem
    unfold find_local_html_files at hmem
    have hf := List.of_mem_filter (List.mem_of_mem_take hmem)
    simp at hf

end ScraperGen
